import Mathlib

/-!
Verification of the async-graphql fragment: the `UploadFile` validation rule
(src/validation/rules/upload_file.rs) and the Tide HTTP integration
(async-graphql-tide/src/lib.rs), shallowly embedded in Lean 4.

Types owned by external crates (`graphql_parser`, the registry and validator
context of the main crate, whose sources are not part of the fragment) are
modelled from the specification, with only the fields the embedded code reads.
-/

namespace AG

/-- A source position (line, column), as in `graphql_parser::Pos`. -/
structure Pos where
  line : Nat
  column : Nat
deriving DecidableEq, Repr

/-- A syntactic type reference, as in `graphql_parser::query::Type`:
a named type possibly wrapped in list / non-null constructors. -/
inductive ParsedType where
  | namedType (name : String)
  | listType (ty : ParsedType)
  | nonNullType (ty : ParsedType)
deriving DecidableEq, Repr

/-- The type `graphql_parser::query::VariableDefinition` (fields read by the embedded
code: `position` and `var_type`; the parser also stores a name and an optional
default value, elided here as the rule never reads them beyond the name). -/
structure VariableDefinition where
  position : Pos
  name : String
  var_type : ParsedType
deriving DecidableEq, Repr

/-- The type `graphql_parser::query::Query` (fields relevant to the rule: its variable
definitions; the selection set and directives are never read by the rule). -/
structure Query where
  name : Option String
  variable_definitions : List VariableDefinition
deriving DecidableEq, Repr

/-- The type `graphql_parser::query::Mutation` (same relevant fields). -/
structure Mutation where
  name : Option String
  variable_definitions : List VariableDefinition
deriving DecidableEq, Repr

/-- The type `graphql_parser::query::Subscription` (same relevant fields). -/
structure Subscription where
  name : Option String
  variable_definitions : List VariableDefinition
deriving DecidableEq, Repr

/-- The type `graphql_parser::query::OperationDefinition`: a bare selection set or a
query / mutation / subscription operation. -/
inductive OperationDefinition where
  | selectionSet
  | query (q : Query)
  | mutation (m : Mutation)
  | subscription (s : Subscription)
deriving DecidableEq, Repr

/-- Modelled from the spec: a type definition held by the Type Registry.  Only
its name is observed by the embedded code (`ty.name()`); the registry source
(`src/registry.rs`) is not part of the repository fragment. -/
structure TypeDefinition where
  name : String
deriving DecidableEq, Repr

/-- Modelled from the spec: the schema's Type Registry, an authoritative
mapping from type name to type definition, read-only during a request. -/
structure Registry where
  types : List (String × TypeDefinition)
deriving DecidableEq, Repr

/-- The underlying named type of a syntactic type reference, obtained by
stripping list / non-null wrappers. -/
def ParsedType.baseName : ParsedType → String
  | .namedType n => n
  | .listType t => t.baseName
  | .nonNullType t => t.baseName

/-- Modelled from the spec: `basic_type_by_parsed_type` resolves a syntactic
type reference — including list/non-null wrappers — to its underlying named
type definition, or `none` if the name is undeclared in the registry. -/
def Registry.basic_type_by_parsed_type (r : Registry) (t : ParsedType) :
    Option TypeDefinition :=
  (r.types.find? (fun p => p.1 == t.baseName)).map (fun p => p.2)

/-- A reported validation error: message plus one or more source positions,
as in the spec's Validation Error record. -/
structure RuleError where
  locations : List Pos
  message : String
deriving DecidableEq, Repr

/-- Modelled from the spec: the per-request Validator Context — a handle to
the Type Registry plus the growable ordered sequence of reported errors.
(`src/validation/context.rs` is not part of the repository fragment.) -/
structure ValidatorContext where
  registry : Registry
  errors : List RuleError
deriving DecidableEq, Repr

/-- Modelled from the spec: `report_error(positions, message)` appends one
error to the context's error sequence and never fails. -/
def ValidatorContext.report_error (ctx : ValidatorContext)
    (positions : List Pos) (message : String) : ValidatorContext :=
  { ctx with errors := ctx.errors ++ [⟨positions, message⟩] }

/-- The fixed message reported by the `UploadFile` rule
(src/validation/rules/upload_file.rs, line 21). -/
def uploadMessage : String :=
  "The Upload type is only allowed to be defined on a mutation"

/-- Embeds `UploadFile::enter_operation_definition`
(src/validation/rules/upload_file.rs, lines 9-29): on a `Query` operation,
for each variable definition whose type resolves in the registry to a type
named `Upload`, report an error at the variable's position; all other
operation kinds are ignored.  The Rust `&mut ctx` is state passing. -/
def UploadFile.enter_operation_definition (ctx : ValidatorContext)
    (operation_definition : OperationDefinition) : ValidatorContext :=
  match operation_definition with
  | .query q =>
      q.variable_definitions.foldl (fun ctx var =>
        match ctx.registry.basic_type_by_parsed_type var.var_type with
        | some ty =>
            if ty.name == "Upload" then
              ctx.report_error [var.position] uploadMessage
            else
              ctx
        | none => ctx) ctx
  | _ => ctx

/-- Whether a variable definition is one the rule reports on: its declared
type resolves in the registry and the resolved type is named `Upload`. -/
def isUploadVar (r : Registry) (v : VariableDefinition) : Bool :=
  match r.basic_type_by_parsed_type v.var_type with
  | some ty => ty.name == "Upload"
  | none => false

/-! ## The Tide HTTP integration (async-graphql-tide/src/lib.rs)

The handler builds a query builder from the request (external
`into_query_builder_opts`, modelled as a supplied extraction function),
maps extraction failure to a BadRequest (400) handler error, otherwise
applies the caller-supplied configuration function once, executes the
configured builder against the schema, and serializes the execution outcome
as the JSON body of a 200 response.  External collaborators (extractor,
schema execution, `GQLResponse` serialization) are parameters or spec
models; the handler's own control flow is embedded from the source. -/

/-- Modelled from the spec: `IntoQueryBuilderOpts` — extraction limits
`{max_file_count, max_file_size_bytes, max_body_size_bytes}` whose defaults
leave each limit unset (the struct's source is not part of the fragment). -/
structure IntoQueryBuilderOpts where
  max_file_count : Option Nat := none
  max_file_size_bytes : Option Nat := none
  max_body_size_bytes : Option Nat := none
deriving DecidableEq, Repr

/-- The default options, `Default::default()` for `IntoQueryBuilderOpts`. -/
def IntoQueryBuilderOpts.default : IntoQueryBuilderOpts := {}

/-- Modelled from the spec: the extraction error taxonomy of the Query
Source Extractor. -/
inductive ExtractionError where
  | missingQuery
  | malformedBody
  | unsupportedContentType
  | limitExceeded
deriving DecidableEq, Repr

/-- Modelled from the spec: the outcome `query_builder.execute(&schema)`
hands back — a success value, or a pipeline-level failure (parse error,
validation errors, operation selection errors) carrying its error list. -/
inductive QueryResult (D : Type) where
  | ok (resp : D)
  | err (errors : List RuleError)
deriving DecidableEq, Repr

/-- Modelled from the spec: the serialized JSON body of a
`GQLResponse(query_response)` — `{data: ...}` for a success outcome,
`{errors: [...]}` (only `errors`) for a failure outcome. -/
inductive JsonBody (D : Type) where
  | dataBody (d : D)
  | errorsBody (errors : List RuleError)
deriving DecidableEq, Repr

/-- Modelled from the spec: `GQLResponse` serialization of an execution
outcome into a JSON body. -/
def GQLResponse.toBody {D : Type} : QueryResult D → JsonBody D
  | .ok d => .dataBody d
  | .err es => .errorsBody es

/-- An HTTP response as built by the handler: a status code and a body. -/
structure HttpResponse (D : Type) where
  status : Nat
  body : JsonBody D
deriving DecidableEq, Repr

/-- A `tide::Error` as produced by `.status(StatusCode::BadRequest)?`:
the status attached by the handler plus the underlying extraction error. -/
structure TideError where
  status : Nat
  source : ExtractionError
deriving DecidableEq, Repr

/-- The code of `tide::StatusCode::BadRequest`. -/
def StatusCode.badRequest : Nat := 400

/-- The code of `tide::StatusCode::Ok`. -/
def StatusCode.ok : Nat := 200

/-- Embeds `RequestExt::graphql_opts` for `tide::Request`
(async-graphql-tide/src/lib.rs, lines 145-176).  `extract` stands for
`(content_type, self).into_query_builder_opts(&opts)` (request and
content-type already curried in), `query_builder_configuration` is the
caller's hook, and `schema` stands for `query_builder.execute(&schema)`.
On extraction failure the `?` short-circuits with a BadRequest error;
otherwise the hook is applied, the configured builder is executed, and the
serialized outcome is returned with status Ok. -/
def RequestExt.graphql_opts {B D : Type}
    (extract : IntoQueryBuilderOpts → Except ExtractionError B)
    (schema : B → QueryResult D)
    (query_builder_configuration : B → B)
    (opts : IntoQueryBuilderOpts) :
    Except TideError (HttpResponse D) :=
  match extract opts with
  | .error e => .error ⟨StatusCode.badRequest, e⟩
  | .ok query_builder =>
      let query_builder := query_builder_configuration query_builder
      let query_response := schema query_builder
      let gql_response := GQLResponse.toBody query_response
      .ok ⟨StatusCode.ok, gql_response⟩

/-- Embeds `RequestExt::graphql` (async-graphql-tide/src/lib.rs, lines 112-126):
the no-options method is `graphql_opts` with `Default::default()`. -/
def RequestExt.graphql {B D : Type}
    (extract : IntoQueryBuilderOpts → Except ExtractionError B)
    (schema : B → QueryResult D)
    (query_builder_configuration : B → B) :
    Except TideError (HttpResponse D) :=
  RequestExt.graphql_opts extract schema query_builder_configuration
    IntoQueryBuilderOpts.default

/-- Free function `graphql_opts` (async-graphql-tide/src/lib.rs, lines
63-78): delegates to `req.graphql_opts(schema, configuration, opts)`. -/
def graphql_opts {B D : Type}
    (extract : IntoQueryBuilderOpts → Except ExtractionError B)
    (schema : B → QueryResult D)
    (query_builder_configuration : B → B)
    (opts : IntoQueryBuilderOpts) :
    Except TideError (HttpResponse D) :=
  RequestExt.graphql_opts extract schema query_builder_configuration opts

/-- Free function `graphql` (async-graphql-tide/src/lib.rs, lines 47-60):
`graphql_opts` with `Default::default()`. -/
def graphql {B D : Type}
    (extract : IntoQueryBuilderOpts → Except ExtractionError B)
    (schema : B → QueryResult D)
    (query_builder_configuration : B → B) :
    Except TideError (HttpResponse D) :=
  graphql_opts extract schema query_builder_configuration
    IntoQueryBuilderOpts.default

/-- An observable step of the handler, for reasoning about which collaborator
calls the handler makes and in what order: the configuration hook applied to
a builder (recording input and output), or a builder handed to `execute`. -/
inductive HandlerEvent (B : Type) where
  | hookApplied (input output : B)
  | executed (b : B)
deriving DecidableEq, Repr

/-- The handler `RequestExt::graphql_opts` instrumented with an event trace recording
each application of the configuration hook and each call to `execute`.  Its
first component is proved equal to `RequestExt.graphql_opts`
(`graphql_opts_traced_erase`); the trace only makes the calls observable. -/
def RequestExt.graphql_opts_traced {B D : Type}
    (extract : IntoQueryBuilderOpts → Except ExtractionError B)
    (schema : B → QueryResult D)
    (query_builder_configuration : B → B)
    (opts : IntoQueryBuilderOpts) :
    Except TideError (HttpResponse D) × List (HandlerEvent B) :=
  match extract opts with
  | .error e => (.error ⟨StatusCode.badRequest, e⟩, [])
  | .ok query_builder =>
      let configured := query_builder_configuration query_builder
      let query_response := schema configured
      let gql_response := GQLResponse.toBody query_response
      (.ok ⟨StatusCode.ok, gql_response⟩,
        [.hookApplied query_builder configured, .executed configured])

/-- Erasing the trace of the instrumented handler gives back the handler. -/
theorem graphql_opts_traced_erase {B D : Type}
    (extract : IntoQueryBuilderOpts → Except ExtractionError B)
    (schema : B → QueryResult D) (f : B → B) (opts : IntoQueryBuilderOpts) :
    (RequestExt.graphql_opts_traced extract schema f opts).1
      = RequestExt.graphql_opts extract schema f opts := by
  unfold RequestExt.graphql_opts_traced RequestExt.graphql_opts
  cases extract opts <;> rfl

/-! ## Characterization of the UploadFile rule -/

/-- The error the rule reports for one offending variable definition. -/
def uploadErrorFor (v : VariableDefinition) : RuleError :=
  ⟨[v.position], uploadMessage⟩

/-- The loop body of `enter_operation_definition`, named for reasoning. -/
def uploadStep (ctx : ValidatorContext) (var : VariableDefinition) :
    ValidatorContext :=
  match ctx.registry.basic_type_by_parsed_type var.var_type with
  | some ty =>
      if ty.name == "Upload" then
        ctx.report_error [var.position] uploadMessage
      else
        ctx
  | none => ctx

/-- The rule's loop is a left fold of `uploadStep`. -/
theorem enter_query_eq_foldl (ctx : ValidatorContext) (q : Query) :
    UploadFile.enter_operation_definition ctx (.query q)
      = q.variable_definitions.foldl uploadStep ctx :=
  rfl

/-- Errors appended by the fold of `uploadStep`: in declaration order, one
error per variable whose type resolves to `Upload`; the registry is kept. -/
theorem uploadStep_foldl_spec (vs : List VariableDefinition)
    (ctx : ValidatorContext) :
    vs.foldl uploadStep ctx
      = ⟨ctx.registry,
         ctx.errors
           ++ List.map uploadErrorFor (vs.filter (isUploadVar ctx.registry))⟩ := by
  induction vs generalizing ctx with
  | nil => simp
  | cons v vs ih =>
      rw [List.foldl_cons, List.filter_cons]
      rcases h : ctx.registry.basic_type_by_parsed_type v.var_type with _ | ty
      · have hstep : uploadStep ctx v = ctx := by
          unfold uploadStep; rw [h]
        have hv : isUploadVar ctx.registry v = false := by
          unfold isUploadVar; rw [h]
        rw [hstep, ih, hv]
        simp
      · by_cases hn : (ty.name == "Upload") = true
        · have hstep : uploadStep ctx v
              = ctx.report_error [v.position] uploadMessage := by
            unfold uploadStep; rw [h]; simp [hn]
          have hv : isUploadVar ctx.registry v = true := by
            unfold isUploadVar; rw [h]; exact hn
          rw [hstep, ih, hv]
          simp [ValidatorContext.report_error, uploadErrorFor]
        · have hstep : uploadStep ctx v = ctx := by
            unfold uploadStep; rw [h]; simp [hn]
          have hv : isUploadVar ctx.registry v = false := by
            unfold isUploadVar; rw [h]; simpa using hn
          rw [hstep, ih, hv]
          simp

/-- Running `enter_operation_definition` on a query operation, characterized: the
resulting context keeps the registry and appends exactly one error, in
declaration order, per Upload-resolving variable definition. -/
theorem enter_query_spec (ctx : ValidatorContext) (q : Query) :
    UploadFile.enter_operation_definition ctx (.query q)
      = ⟨ctx.registry,
         ctx.errors
           ++ List.map uploadErrorFor
               (q.variable_definitions.filter (isUploadVar ctx.registry))⟩ := by
  rw [enter_query_eq_foldl]
  exact uploadStep_foldl_spec q.variable_definitions ctx

/-- Running `enter_operation_definition` on anything but a query operation is the
identity on the context. -/
theorem enter_non_query_id (ctx : ValidatorContext)
    (op : OperationDefinition) (h : ∀ q, op ≠ .query q) :
    UploadFile.enter_operation_definition ctx op = ctx := by
  cases op with
  | query q => exact absurd rfl (h q)
  | selectionSet => rfl
  | mutation m => rfl
  | subscription s => rfl

/-! ## Concrete fixtures

A registry declaring the `Upload` scalar (and an unrelated type), the
variable `$f : Upload` of the spec's example document
`query Q($f: Upload) { dummy }`, and the operations built from it. -/

/-- A registry declaring `Int` and the `Upload` scalar. -/
def uploadRegistry : Registry :=
  ⟨[("Int", ⟨"Int"⟩), ("Upload", ⟨"Upload"⟩)]⟩

/-- The variable definition `$f: Upload` at line 1, column 9. -/
def fVar : VariableDefinition :=
  ⟨⟨1, 9⟩, "f", .namedType "Upload"⟩

/-- A variable definition whose type name is not declared in the registry. -/
def gVar : VariableDefinition :=
  ⟨⟨1, 22⟩, "g", .namedType "Missing"⟩

/-- The operation of `query Q($f: Upload) { dummy }`. -/
def queryOpWithUpload : OperationDefinition :=
  .query ⟨some "Q", [fVar]⟩

/-- The same document re-typed as a mutation: `mutation M($f: Upload)`. -/
def mutationOpWithUpload : OperationDefinition :=
  .mutation ⟨some "M", [fVar]⟩

/-! ## Claims about the UploadFile rule -/

/-- C2: on a query operation, for each variable definition whose declared
type resolves in the registry to the type named `Upload`,
`enter_operation_definition` reports exactly one error, at that variable's
declared position, with the fixed message "The Upload type is only allowed
to be defined on a mutation" — and nothing else is appended. -/
theorem C2_query_upload_vars_each_reported (ctx : ValidatorContext)
    (q : Query) :
    (UploadFile.enter_operation_definition ctx (.query q)).errors
      = ctx.errors
        ++ List.map (fun v => RuleError.mk [v.position] uploadMessage)
            (q.variable_definitions.filter (isUploadVar ctx.registry)) := by
  rw [enter_query_spec]
  rfl

/-- C4: on any operation that is not a query (mutation, subscription, or
bare selection set), `enter_operation_definition` reports no error at all,
regardless of the variable definitions present: the context is returned
unchanged. -/
theorem C4_non_query_reports_nothing (ctx : ValidatorContext)
    (op : OperationDefinition) (h : ∀ q, op ≠ OperationDefinition.query q) :
    UploadFile.enter_operation_definition ctx op = ctx := by
  cases op with
  | query q => exact absurd rfl (h q)
  | selectionSet => rfl
  | mutation m => rfl
  | subscription s => rfl

/-- Witness for C4: a mutation declaring the Upload-typed variable `$f`
validates cleanly under the rule. -/
theorem C4_witness :
    UploadFile.enter_operation_definition ⟨uploadRegistry, []⟩
        mutationOpWithUpload
      = ⟨uploadRegistry, []⟩ :=
  C4_non_query_reports_nothing ⟨uploadRegistry, []⟩ mutationOpWithUpload
    (by intro q hq; simp [mutationOpWithUpload] at hq)

/-- C5: on a query operation, the rule reports one error per Upload-typed
variable definition — the complete set, not just the first — and returns
normally (it is a total function, so the traversal is never halted): the
error count grows by exactly the number of Upload-resolving variables. -/
theorem C5_one_error_per_upload_var (ctx : ValidatorContext) (q : Query) :
    (UploadFile.enter_operation_definition ctx (.query q)).errors.length
      = ctx.errors.length
        + (q.variable_definitions.filter (isUploadVar ctx.registry)).length := by
  rw [enter_query_spec]
  simp

/-- C6: `enter_operation_definition` only ever appends to the context's
error sequence: the previous errors remain a prefix, unchanged and in their
original positions, and the error count does not decrease. -/
theorem C6_errors_append_only (ctx : ValidatorContext)
    (op : OperationDefinition) :
    (∃ tail, (UploadFile.enter_operation_definition ctx op).errors
        = ctx.errors ++ tail)
    ∧ ctx.errors.length
        ≤ (UploadFile.enter_operation_definition ctx op).errors.length := by
  cases op with
  | query q =>
      refine ⟨⟨List.map uploadErrorFor
        (q.variable_definitions.filter (isUploadVar ctx.registry)), ?_⟩, ?_⟩
      · rw [enter_query_spec]
      · rw [enter_query_spec]
        simp
  | selectionSet =>
      exact ⟨⟨[], by simp [UploadFile.enter_operation_definition]⟩, le_refl _⟩
  | mutation m =>
      exact ⟨⟨[], by simp [UploadFile.enter_operation_definition]⟩, le_refl _⟩
  | subscription s =>
      exact ⟨⟨[], by simp [UploadFile.enter_operation_definition]⟩, le_refl _⟩

/-- C8: `enter_operation_definition` is deterministic — on logically
identical operation definitions and equal starting contexts (hence the same
registry), it produces identical error sequences: same errors, same order,
same positions. -/
theorem C8_deterministic (ctx₁ ctx₂ : ValidatorContext)
    (op₁ op₂ : OperationDefinition) (hctx : ctx₁ = ctx₂) (hop : op₁ = op₂) :
    (UploadFile.enter_operation_definition ctx₁ op₁).errors
      = (UploadFile.enter_operation_definition ctx₂ op₂).errors := by
  subst hctx
  subst hop
  rfl

/-- Witness for C8, at the example query document and registry. -/
theorem C8_witness :
    (UploadFile.enter_operation_definition ⟨uploadRegistry, []⟩
        queryOpWithUpload).errors
      = (UploadFile.enter_operation_definition ⟨uploadRegistry, []⟩
          queryOpWithUpload).errors :=
  C8_deterministic ⟨uploadRegistry, []⟩ ⟨uploadRegistry, []⟩
    queryOpWithUpload queryOpWithUpload rfl rfl

/-- C10: a variable definition on a query operation whose declared type does
not resolve in the registry (`basic_type_by_parsed_type` returns `none`)
contributes no error and does not make the rule fail: removing it from the
variable list leaves the rule's result unchanged. -/
theorem C10_unresolved_type_skipped (ctx : ValidatorContext)
    (nm : Option String) (vs₁ vs₂ : List VariableDefinition)
    (v : VariableDefinition)
    (h : ctx.registry.basic_type_by_parsed_type v.var_type = none) :
    UploadFile.enter_operation_definition ctx (.query ⟨nm, vs₁ ++ v :: vs₂⟩)
      = UploadFile.enter_operation_definition ctx (.query ⟨nm, vs₁ ++ vs₂⟩) := by
  rw [enter_query_spec, enter_query_spec]
  have hv : isUploadVar ctx.registry v = false := by
    unfold isUploadVar
    rw [h]
  simp [List.filter_append, List.filter_cons, hv]

/-- Witness for C10: the undeclared-type variable `$g: Missing`, inserted
before `$f: Upload` on the example query, changes nothing. -/
theorem C10_witness :
    uploadRegistry.basic_type_by_parsed_type gVar.var_type = none
    ∧ UploadFile.enter_operation_definition ⟨uploadRegistry, []⟩
          (.query ⟨some "Q", [] ++ gVar :: [fVar]⟩)
        = UploadFile.enter_operation_definition ⟨uploadRegistry, []⟩
            (.query ⟨some "Q", [] ++ [fVar]⟩) :=
  ⟨by decide,
   C10_unresolved_type_skipped ⟨uploadRegistry, []⟩ (some "Q") [] [fVar]
     gVar (by decide)⟩

/-! ## Claims about the Tide handler -/

/-- C3: on an extraction (query-builder construction) failure, the handler
short-circuits to a BadRequest (400) error; the configuration hook is never
invoked and no query is ever executed — the event trace is empty, so no
partial query builder reaches execution. -/
theorem C3_extraction_failure_short_circuits {B D : Type}
    (extract : IntoQueryBuilderOpts → Except ExtractionError B)
    (schema : B → QueryResult D) (f : B → B) (opts : IntoQueryBuilderOpts)
    (e : ExtractionError) (h : extract opts = .error e) :
    RequestExt.graphql_opts extract schema f opts
        = .error ⟨StatusCode.badRequest, e⟩
    ∧ (RequestExt.graphql_opts_traced extract schema f opts).2 = [] := by
  constructor
  · unfold RequestExt.graphql_opts
    rw [h]
  · unfold RequestExt.graphql_opts_traced
    rw [h]

/-- Witness for C3: a request with no query text fails extraction and gets
a 400 with an empty event trace. -/
theorem C3_witness :
    RequestExt.graphql_opts (B := Unit) (D := Unit)
        (fun _ => .error .missingQuery) (fun _ => .ok ()) id
        IntoQueryBuilderOpts.default
      = .error ⟨StatusCode.badRequest, .missingQuery⟩
    ∧ (RequestExt.graphql_opts_traced (B := Unit) (D := Unit)
        (fun _ => .error .missingQuery) (fun _ => .ok ()) id
        IntoQueryBuilderOpts.default).2 = [] :=
  C3_extraction_failure_short_circuits (fun _ => .error .missingQuery)
    (fun _ => .ok ()) id IntoQueryBuilderOpts.default .missingQuery rfl

/-- C7: when extraction succeeds with builder `b`, the configuration hook is
applied to `b` exactly once, and the builder handed to `execute` is exactly
the result of that single application — the trace holds one hook event and
one execute event, the execute event being the sole consumption of the
builder. -/
theorem C7_hook_applied_exactly_once {B D : Type}
    (extract : IntoQueryBuilderOpts → Except ExtractionError B)
    (schema : B → QueryResult D) (f : B → B) (opts : IntoQueryBuilderOpts)
    (b : B) (h : extract opts = .ok b) :
    (RequestExt.graphql_opts_traced extract schema f opts).2
        = [.hookApplied b (f b), .executed (f b)]
    ∧ RequestExt.graphql_opts extract schema f opts
        = .ok ⟨StatusCode.ok, GQLResponse.toBody (schema (f b))⟩ := by
  constructor
  · unfold RequestExt.graphql_opts_traced
    rw [h]
  · unfold RequestExt.graphql_opts
    rw [h]

/-- Witness for C7, at a trivial extractor and schema over `Nat` builders. -/
theorem C7_witness :
    (RequestExt.graphql_opts_traced (B := Nat) (D := Unit)
        (fun _ => .ok 5) (fun _ => .ok ()) (fun b => b + 1)
        IntoQueryBuilderOpts.default).2
      = [.hookApplied 5 6, .executed 6]
    ∧ RequestExt.graphql_opts (B := Nat) (D := Unit)
        (fun _ => .ok 5) (fun _ => .ok ()) (fun b => b + 1)
        IntoQueryBuilderOpts.default
      = .ok ⟨StatusCode.ok, GQLResponse.toBody (.ok ())⟩ :=
  C7_hook_applied_exactly_once (fun _ => .ok 5) (fun _ => .ok ())
    (fun b => b + 1) IntoQueryBuilderOpts.default 5 rfl

/-- C9: the no-options entry points are the options entry points applied to
the default options: `graphql` delegates to `graphql_opts` with
`Default::default()`, and `RequestExt::graphql` to `RequestExt::graphql_opts`
with `Default::default()`; both equalities hold definitionally. -/
theorem C9_defaults_refinement {B D : Type}
    (extract : IntoQueryBuilderOpts → Except ExtractionError B)
    (schema : B → QueryResult D) (f : B → B) :
    graphql extract schema f
        = graphql_opts extract schema f IntoQueryBuilderOpts.default
    ∧ RequestExt.graphql extract schema f
        = RequestExt.graphql_opts extract schema f
            IntoQueryBuilderOpts.default :=
  ⟨rfl, rfl⟩

/-! ## C1: status of pipeline-level parse/validation failures

The example request of the spec: builder construction succeeds, and
execution fails validation under the `UploadFile` rule (one error at the
position of `$f`).  The handler embeds the outcome in the body of a 200
response; only extraction failures produce a 400. -/

/-- The validation errors of `query Q($f: Upload) { dummy }` under the
`UploadFile` rule, starting from an empty error sequence. -/
def exampleValidationErrors : List RuleError :=
  (UploadFile.enter_operation_definition ⟨uploadRegistry, []⟩
    queryOpWithUpload).errors

/-- An extractor for the example request: builder construction succeeds. -/
def exampleExtract : IntoQueryBuilderOpts → Except ExtractionError Unit :=
  fun _ => .ok ()

/-- Modelled from the spec: a schema on which executing the example builder
fails validation with exactly the `UploadFile` errors of the example
document (execute runs parse and validation and returns their failure). -/
def exampleSchema : Unit → QueryResult Unit :=
  fun _ => .err exampleValidationErrors

/-- C1 counterexample: on the spec's example request — builder construction
succeeds, the execution outcome is a validation failure with one error on
`$f` — the handler returns status 200 (Ok) with an errors-only body, not
the HTTP 400 response the claim requires. -/
theorem C1_counterexample :
    exampleExtract IntoQueryBuilderOpts.default = .ok ()
    ∧ exampleValidationErrors
        = [⟨[⟨1, 9⟩], uploadMessage⟩]
    ∧ RequestExt.graphql_opts exampleExtract exampleSchema id
          IntoQueryBuilderOpts.default
        = .ok ⟨200, .errorsBody exampleValidationErrors⟩
    ∧ (200 : Nat) ≠ 400 := by
  refine ⟨rfl, by decide, rfl, by decide⟩

/-- C1 amended: for every request whose builder construction succeeds and
whose execution outcome is a pipeline-level (parse/validation) failure, the
handler returns an HTTP response with status 200 (not 400) whose JSON body
contains only `errors`; only construction failures yield 400. -/
theorem C1_amended_exec_failure_is_200 {B D : Type}
    (extract : IntoQueryBuilderOpts → Except ExtractionError B)
    (schema : B → QueryResult D) (f : B → B) (opts : IntoQueryBuilderOpts)
    (b : B) (es : List RuleError)
    (hb : extract opts = .ok b) (he : schema (f b) = .err es) :
    RequestExt.graphql_opts extract schema f opts
      = .ok ⟨StatusCode.ok, .errorsBody es⟩ := by
  unfold RequestExt.graphql_opts
  rw [hb]
  simp only [he]
  rfl

/-- Witness for the amended C1, at the example request and schema. -/
theorem C1_amended_witness :
    RequestExt.graphql_opts exampleExtract exampleSchema id
        IntoQueryBuilderOpts.default
      = .ok ⟨StatusCode.ok, .errorsBody exampleValidationErrors⟩ :=
  C1_amended_exec_failure_is_200 exampleExtract exampleSchema id
    IntoQueryBuilderOpts.default () exampleValidationErrors rfl rfl

end AG
